import Mathlib

/-!
# Model-name translation of `pkg/adapter/models.go`

A shallow embedding of the Go package `adapter` (file `pkg/adapter/models.go`):
the Gemini model constants, the forward table `ConvertModel`, the reverse table
`GetMappedModel`, the display helper `GetModel`, and the request-scoped resolvers
`ToGenaiModel`.

Go strings are embedded as Lean `String`s (Go compares strings bytewise, which on
UTF-8 text is the comparison of their characters; the one prefix tested, "gpt-4", is
ASCII).  The package variable
`USE_MODEL_MAPPING` is read by the functions below; it is passed to them as an
explicit `Bool` argument.  `os.Getenv` is a lookup in an explicit environment.
-/

namespace adapter

/-! ## Environment and library functions -/

/-- The process environment: the value of every variable name, `""` when unset
(which is what Go's `os.Getenv` reports for an unset variable). -/
abbrev Environ := String → String

/-- Go's `os.Getenv(key)`. -/
def os.Getenv (env : Environ) (key : String) : String := env key

/-- Go's `strings.HasPrefix(s, pfx)`, whose body is
`len(s) >= len(pfx) && s[:len(pfx)] == pfx`. -/
def strings.HasPrefix (s pfx : String) : Bool :=
  decide (s.data.length ≥ pfx.data.length) && (s.data.take pfx.data.length == pfx.data)

/-! ## Constants of `github.com/sashabaranov/go-openai` -/

/-- Modelled from the spec: the constant `openai.GPT4VisionPreview` of the imported
go-openai library, the provider-A vision name. -/
def openai.GPT4VisionPreview : String := "gpt-4-vision-preview"

/-- Modelled from the spec: the constant `openai.GPT4TurboPreview` of the imported
go-openai library, a "turbo" family variant. -/
def openai.GPT4TurboPreview : String := "gpt-4-turbo-preview"

/-- Modelled from the spec: the constant `openai.GPT4Turbo1106` of the imported
go-openai library, a "turbo" family variant. -/
def openai.GPT4Turbo1106 : String := "gpt-4-1106-preview"

/-- Modelled from the spec: the constant `openai.GPT4Turbo0125` of the imported
go-openai library, a "turbo" family variant. -/
def openai.GPT4Turbo0125 : String := "gpt-4-0125-preview"

/-- Modelled from the spec: the constant `openai.GPT4` of the imported go-openai
library, the general high-tier family name. -/
def openai.GPT4 : String := "gpt-4"

/-- Modelled from the spec: the constant `openai.GPT3Dot5Turbo` of the imported
go-openai library, the baseline provider-A name. -/
def openai.GPT3Dot5Turbo : String := "gpt-3.5-turbo"

/-- Modelled from the spec: `string(openai.AdaEmbeddingV2)` of the imported
go-openai library, the provider-A embedding name. -/
def openai.AdaEmbeddingV2 : String := "text-embedding-ada-002"

/-! ## Gemini model constants (`models.go`, lines 10-17) -/

def Gemini1Dot5Flash8b : String := "gemini-1.5-flash-8b"
def Gemini1Dot5Pro : String := "gemini-1.5-pro-002"
def Gemini1Dot5Flash : String := "gemini-1.5-flash-002"
def Gemini1Dot5ProV : String := "gemini-1.0-pro-vision-latest"
def TextEmbedding004 : String := "text-embedding-004"

/-! ## The package variable -/

/-- The initial value of the package variable:
`var USE_MODEL_MAPPING bool = os.Getenv("DISABLE_MODEL_MAPPING") != "1"`. -/
def USE_MODEL_MAPPING (env : Environ) : Bool :=
  os.Getenv env "DISABLE_MODEL_MAPPING" != "1"

/-! ## Functions of `models.go` -/

/-- `func GetOwner() string` (lines 23-29); `useModelMapping` is the current value
of the package variable `USE_MODEL_MAPPING`. -/
def GetOwner (useModelMapping : Bool) : String :=
  if useModelMapping then "openai" else "google"

/-- `func ConvertModel(openAiModelName string) string` (lines 60-73): a `switch`
whose cases are tried in order. -/
def ConvertModel (openAiModelName : String) : String :=
  if openAiModelName = openai.GPT4VisionPreview then
    Gemini1Dot5ProV
  else if openAiModelName = openai.GPT4TurboPreview ∨ openAiModelName = openai.GPT4Turbo1106
      ∨ openAiModelName = openai.GPT4Turbo0125 then
    Gemini1Dot5Pro
  else if strings.HasPrefix openAiModelName openai.GPT4 then
    Gemini1Dot5Flash
  else if openAiModelName = openai.AdaEmbeddingV2 then
    TextEmbedding004
  else
    Gemini1Dot5Flash8b

/-- `func GetModel(openAiModelName string) string` (lines 32-38). -/
def GetModel (useModelMapping : Bool) (openAiModelName : String) : String :=
  if useModelMapping then
    openAiModelName
  else
    ConvertModel openAiModelName

/-- `func GetMappedModel(geminiModelName string) string` (lines 41-57). -/
def GetMappedModel (useModelMapping : Bool) (geminiModelName : String) : String :=
  if !useModelMapping then
    geminiModelName
  else if geminiModelName = Gemini1Dot5ProV then
    openai.GPT4VisionPreview
  else if geminiModelName = Gemini1Dot5Pro then
    openai.GPT4TurboPreview
  else if geminiModelName = Gemini1Dot5Flash then
    openai.GPT4
  else if geminiModelName = TextEmbedding004 then
    openai.AdaEmbeddingV2
  else
    openai.GPT3Dot5Turbo

/-- Modelled from the spec: the request type `ChatCompletionRequest`, declared
elsewhere in the package; the methods of `models.go` read its `Model` field only,
the remaining fields are kept as an uninterpreted payload. -/
structure ChatCompletionRequest where
  Model : String
  payload : List String := []

/-- Modelled from the spec: the request type `EmbeddingRequest`, declared elsewhere
in the package; the method of `models.go` reads its `Model` field only, the
remaining fields are kept as an uninterpreted payload. -/
structure EmbeddingRequest where
  Model : String
  payload : List String := []

/-- `func (req *ChatCompletionRequest) ParseModelWithoutMapping() string`
(lines 85-96); `env` is the environment at the time of the call. -/
def ChatCompletionRequest.ParseModelWithoutMapping (env : Environ)
    (req : ChatCompletionRequest) : String :=
  if req.Model = Gemini1Dot5ProV then
    if os.Getenv env "GPT_4_VISION_PREVIEW" = Gemini1Dot5Pro then
      Gemini1Dot5Pro
    else
      Gemini1Dot5Flash
  else
    req.Model

/-- `func (req *ChatCompletionRequest) ParseModelWithMapping() string`
(lines 99-110); `env` is the environment at the time of the call. -/
def ChatCompletionRequest.ParseModelWithMapping (env : Environ)
    (req : ChatCompletionRequest) : String :=
  if req.Model = openai.GPT4VisionPreview then
    if os.Getenv env "GPT_4_VISION_PREVIEW" = Gemini1Dot5Pro then
      Gemini1Dot5Pro
    else
      Gemini1Dot5Flash
  else
    ConvertModel req.Model

/-- `func (req *ChatCompletionRequest) ToGenaiModel() string` (lines 76-82). -/
def ChatCompletionRequest.ToGenaiModel (useModelMapping : Bool) (env : Environ)
    (req : ChatCompletionRequest) : String :=
  if useModelMapping then
    req.ParseModelWithMapping env
  else
    req.ParseModelWithoutMapping env

/-- `func (req *EmbeddingRequest) ToGenaiModel() string` (lines 113-119). -/
def EmbeddingRequest.ToGenaiModel (useModelMapping : Bool) (req : EmbeddingRequest) : String :=
  if useModelMapping then
    ConvertModel req.Model
  else
    req.Model

/-! ## Specification-side notions -/

/-- "x starts with p": x is p followed by some (possibly empty) rest. -/
def StartsWith (x p : String) : Prop := ∃ rest : String, x = p ++ rest

/-- An environment in which the variable `GPT_4_VISION_PREVIEW` has the value `v`
and every other variable is unset. -/
def overrideEnv (v : String) : Environ :=
  fun key => if key = "GPT_4_VISION_PREVIEW" then v else ""

/-! ## Library facts about `strings.HasPrefix` -/

theorem hasPrefix_iff_startsWith (s p : String) :
    strings.HasPrefix s p = true ↔ StartsWith s p := by
  unfold strings.HasPrefix StartsWith
  constructor
  · intro h
    simp only [Bool.and_eq_true, decide_eq_true_eq, beq_iff_eq] at h
    refine ⟨⟨s.data.drop p.data.length⟩, ?_⟩
    apply String.ext
    rw [String.data_append]
    show s.data = p.data ++ s.data.drop p.data.length
    have hsplit := List.take_append_drop p.data.length s.data
    rw [h.2] at hsplit
    exact hsplit.symm
  · rintro ⟨rest, rfl⟩
    simp [String.data_append]

theorem hasPrefix_eq_false_iff (s p : String) :
    strings.HasPrefix s p = false ↔ ¬ StartsWith s p := by
  rw [← hasPrefix_iff_startsWith, Bool.not_eq_true]

/-! ## The rules of `ConvertModel`, one lemma per `case` -/

theorem ConvertModel_case_vision :
    ConvertModel "gpt-4-vision-preview" = "gemini-1.0-pro-vision-latest" := by decide

theorem ConvertModel_case_turbo (x : String)
    (h : x = "gpt-4-turbo-preview" ∨ x = "gpt-4-1106-preview" ∨ x = "gpt-4-0125-preview") :
    ConvertModel x = "gemini-1.5-pro-002" := by
  rcases h with rfl | rfl | rfl <;> decide

theorem ConvertModel_case_prefix (x : String) (hv : x ≠ "gpt-4-vision-preview")
    (h1 : x ≠ "gpt-4-turbo-preview") (h2 : x ≠ "gpt-4-1106-preview")
    (h3 : x ≠ "gpt-4-0125-preview") (hp : StartsWith x "gpt-4") :
    ConvertModel x = "gemini-1.5-flash-002" := by
  have hp' : strings.HasPrefix x "gpt-4" = true := (hasPrefix_iff_startsWith x "gpt-4").2 hp
  simp only [ConvertModel, openai.GPT4VisionPreview, openai.GPT4TurboPreview,
    openai.GPT4Turbo1106, openai.GPT4Turbo0125, openai.GPT4, Gemini1Dot5Flash]
  rw [if_neg hv, if_neg (by simp [h1, h2, h3]), if_pos hp']

theorem ConvertModel_case_embedding :
    ConvertModel "text-embedding-ada-002" = "text-embedding-004" := by decide

theorem ConvertModel_case_default (x : String) (hp : ¬ StartsWith x "gpt-4")
    (he : x ≠ "text-embedding-ada-002") :
    ConvertModel x = "gemini-1.5-flash-8b" := by
  have hp' : ¬ strings.HasPrefix x "gpt-4" = true :=
    fun h => hp ((hasPrefix_iff_startsWith x "gpt-4").1 h)
  have hv : x ≠ "gpt-4-vision-preview" := by
    rintro rfl; exact hp ⟨"-vision-preview", by decide⟩
  have h1 : x ≠ "gpt-4-turbo-preview" := by
    rintro rfl; exact hp ⟨"-turbo-preview", by decide⟩
  have h2 : x ≠ "gpt-4-1106-preview" := by
    rintro rfl; exact hp ⟨"-1106-preview", by decide⟩
  have h3 : x ≠ "gpt-4-0125-preview" := by
    rintro rfl; exact hp ⟨"-0125-preview", by decide⟩
  simp only [ConvertModel, openai.GPT4VisionPreview, openai.GPT4TurboPreview,
    openai.GPT4Turbo1106, openai.GPT4Turbo0125, openai.GPT4, openai.AdaEmbeddingV2,
    Gemini1Dot5Flash8b]
  rw [if_neg hv, if_neg (by simp [h1, h2, h3]), if_neg hp', if_neg he]

/-! ## The rules of `GetMappedModel` with mapping enabled -/

theorem GetMappedModel_default (g : String) (hv : g ≠ "gemini-1.0-pro-vision-latest")
    (hp : g ≠ "gemini-1.5-pro-002") (hf : g ≠ "gemini-1.5-flash-002")
    (he : g ≠ "text-embedding-004") :
    GetMappedModel true g = "gpt-3.5-turbo" := by
  simp only [GetMappedModel, Gemini1Dot5ProV, Gemini1Dot5Pro, Gemini1Dot5Flash,
    TextEmbedding004, openai.GPT3Dot5Turbo]
  rw [if_neg (by simp), if_neg hv, if_neg hp, if_neg hf, if_neg he]

/-! ## Forward table -/

/-- C1: `ConvertModel` is the ordered, first-match-wins table. For every string `x`:
the vision name gives "gemini-1.0-pro-vision-latest"; otherwise one of the three turbo
names gives "gemini-1.5-pro-002"; otherwise a name starting with "gpt-4" gives
"gemini-1.5-flash-002"; otherwise the embedding name gives "text-embedding-004";
otherwise the result is "gemini-1.5-flash-8b". `ConvertModel` takes the name as its
only argument: neither the mapping flag nor the environment is among its inputs. -/
theorem ConvertModel_eq_table (x : String) :
    (x = "gpt-4-vision-preview" → ConvertModel x = "gemini-1.0-pro-vision-latest") ∧
    (x ≠ "gpt-4-vision-preview" →
      (x = "gpt-4-turbo-preview" ∨ x = "gpt-4-1106-preview" ∨ x = "gpt-4-0125-preview") →
      ConvertModel x = "gemini-1.5-pro-002") ∧
    (x ≠ "gpt-4-vision-preview" →
      ¬ (x = "gpt-4-turbo-preview" ∨ x = "gpt-4-1106-preview" ∨ x = "gpt-4-0125-preview") →
      StartsWith x "gpt-4" → ConvertModel x = "gemini-1.5-flash-002") ∧
    (x ≠ "gpt-4-vision-preview" →
      ¬ (x = "gpt-4-turbo-preview" ∨ x = "gpt-4-1106-preview" ∨ x = "gpt-4-0125-preview") →
      ¬ StartsWith x "gpt-4" → x = "text-embedding-ada-002" →
      ConvertModel x = "text-embedding-004") ∧
    (x ≠ "gpt-4-vision-preview" →
      ¬ (x = "gpt-4-turbo-preview" ∨ x = "gpt-4-1106-preview" ∨ x = "gpt-4-0125-preview") →
      ¬ StartsWith x "gpt-4" → x ≠ "text-embedding-ada-002" →
      ConvertModel x = "gemini-1.5-flash-8b") := by
  refine ⟨?_, ?_, ?_, ?_, ?_⟩
  · rintro rfl
    exact ConvertModel_case_vision
  · intro _ h
    exact ConvertModel_case_turbo x h
  · intro hv ht hp
    simp only [not_or] at ht
    exact ConvertModel_case_prefix x hv ht.1 ht.2.1 ht.2.2 hp
  · rintro _ _ _ rfl
    exact ConvertModel_case_embedding
  · intro _ _ hp he
    exact ConvertModel_case_default x hp he

/-- C1 at the input "gpt-4o": no exact rule applies, the name starts with "gpt-4",
and the third rule gives "gemini-1.5-flash-002". -/
theorem ConvertModel_eq_table_witness :
    StartsWith "gpt-4o" "gpt-4" ∧ ConvertModel "gpt-4o" = "gemini-1.5-flash-002" :=
  ⟨⟨"o", by decide⟩,
   (ConvertModel_eq_table "gpt-4o").2.2.1 (by decide) (by decide) ⟨"o", by decide⟩⟩

/-- C2: rule precedence in `ConvertModel`. Each of the four exact names starts with
"gpt-4" and still takes its exact-match result ("gpt-4-vision-preview" gives
"gemini-1.0-pro-vision-latest", the three turbo names give "gemini-1.5-pro-002");
every other string `x` that starts with "gpt-4" gives "gemini-1.5-flash-002". -/
theorem ConvertModel_precedence (x : String) (hx : StartsWith x "gpt-4") :
    (StartsWith "gpt-4-vision-preview" "gpt-4" ∧
      ConvertModel "gpt-4-vision-preview" = "gemini-1.0-pro-vision-latest") ∧
    (StartsWith "gpt-4-turbo-preview" "gpt-4" ∧
      ConvertModel "gpt-4-turbo-preview" = "gemini-1.5-pro-002") ∧
    (StartsWith "gpt-4-1106-preview" "gpt-4" ∧
      ConvertModel "gpt-4-1106-preview" = "gemini-1.5-pro-002") ∧
    (StartsWith "gpt-4-0125-preview" "gpt-4" ∧
      ConvertModel "gpt-4-0125-preview" = "gemini-1.5-pro-002") ∧
    (x ≠ "gpt-4-vision-preview" → x ≠ "gpt-4-turbo-preview" → x ≠ "gpt-4-1106-preview" →
      x ≠ "gpt-4-0125-preview" → ConvertModel x = "gemini-1.5-flash-002") := by
  refine ⟨⟨⟨"-vision-preview", by decide⟩, by decide⟩,
    ⟨⟨"-turbo-preview", by decide⟩, by decide⟩,
    ⟨⟨"-1106-preview", by decide⟩, by decide⟩,
    ⟨⟨"-0125-preview", by decide⟩, by decide⟩, ?_⟩
  intro hv h1 h2 h3
  exact ConvertModel_case_prefix x hv h1 h2 h3 hx

/-- C2 at the input "gpt-4-32k", a name with the prefix that is none of the four
exact names. -/
theorem ConvertModel_precedence_witness :
    StartsWith "gpt-4-32k" "gpt-4" ∧ ConvertModel "gpt-4-32k" = "gemini-1.5-flash-002" :=
  ⟨⟨"-32k", by decide⟩,
   (ConvertModel_precedence "gpt-4-32k" ⟨"-32k", by decide⟩).2.2.2.2
     (by decide) (by decide) (by decide) (by decide)⟩

/-! ## `GetModel` -/

/-- C3, as stated, fails: with mapping disabled `GetModel` translates "gpt-4" to
"gemini-1.5-flash-002", so `GetModel` is not the identity in that mode. -/
theorem GetModel_disabled_not_identity :
    GetModel false "gpt-4" = "gemini-1.5-flash-002" ∧ GetModel false "gpt-4" ≠ "gpt-4" :=
  ⟨by decide, by decide⟩

/-- C3, amended: when mapping is disabled (`USE_MODEL_MAPPING = false`),
`GetModel(x) = ConvertModel(x)` for every string `x`. -/
theorem GetModel_disabled (x : String) : GetModel false x = ConvertModel x := by
  simp [GetModel]

/-- C4, as stated, fails: with mapping enabled `GetModel` returns "gpt-4" unchanged,
while `ConvertModel` gives "gemini-1.5-flash-002". -/
theorem GetModel_enabled_not_ConvertModel :
    GetModel true "gpt-4" = "gpt-4" ∧ ConvertModel "gpt-4" = "gemini-1.5-flash-002" ∧
    GetModel true "gpt-4" ≠ ConvertModel "gpt-4" :=
  ⟨by decide, by decide, by decide⟩

/-- C4, amended: when mapping is enabled (`USE_MODEL_MAPPING = true`),
`GetModel(x) = x` for every string `x`. -/
theorem GetModel_enabled (x : String) : GetModel true x = x := by
  simp [GetModel]

/-! ## Unknown names -/

/-- C5, as stated, fails: "gpt-4o" is none of the six listed names, yet
`ConvertModel` gives "gemini-1.5-flash-002" for it (the prefix rule), not the default
"gemini-1.5-flash-8b". -/
theorem ConvertModel_unlisted_not_default :
    ("gpt-4o" ≠ "gpt-4-vision-preview" ∧ "gpt-4o" ≠ "gpt-4-turbo-preview" ∧
      "gpt-4o" ≠ "gpt-4-1106-preview" ∧ "gpt-4o" ≠ "gpt-4-0125-preview" ∧
      "gpt-4o" ≠ "gpt-4" ∧ "gpt-4o" ≠ "text-embedding-ada-002") ∧
    ConvertModel "gpt-4o" = "gemini-1.5-flash-002" ∧
    ConvertModel "gpt-4o" ≠ "gemini-1.5-flash-8b" := by
  decide

/-- C5, amended: for every string `x` that is none of the six listed provider-A names
and does not start with "gpt-4", `ConvertModel(x) = "gemini-1.5-flash-8b"`. -/
theorem ConvertModel_unknown_default (x : String)
    (_hv : x ≠ "gpt-4-vision-preview") (_h1 : x ≠ "gpt-4-turbo-preview")
    (_h2 : x ≠ "gpt-4-1106-preview") (_h3 : x ≠ "gpt-4-0125-preview")
    (_h4 : x ≠ "gpt-4") (he : x ≠ "text-embedding-ada-002")
    (hp : ¬ StartsWith x "gpt-4") :
    ConvertModel x = "gemini-1.5-flash-8b" :=
  ConvertModel_case_default x hp he

/-- C5, amended, at the input "gpt-3.5-turbo". -/
theorem ConvertModel_unknown_default_witness :
    ¬ StartsWith "gpt-3.5-turbo" "gpt-4" ∧
    ConvertModel "gpt-3.5-turbo" = "gemini-1.5-flash-8b" :=
  have hp : ¬ StartsWith "gpt-3.5-turbo" "gpt-4" :=
    (hasPrefix_eq_false_iff "gpt-3.5-turbo" "gpt-4").1 (by decide)
  ⟨hp, ConvertModel_unknown_default "gpt-3.5-turbo" (by decide) (by decide) (by decide)
    (by decide) (by decide) (by decide) hp⟩

/-! ## Reverse table -/

/-- C6: with mapping enabled, `GetMappedModel` is the reverse table. For every string
`g`: "gemini-1.0-pro-vision-latest" gives "gpt-4-vision-preview", "gemini-1.5-pro-002"
gives "gpt-4-turbo-preview", "gemini-1.5-flash-002" gives "gpt-4", "text-embedding-004"
gives "text-embedding-ada-002", and every other `g` gives "gpt-3.5-turbo", as does
"gemini-1.5-flash-8b". -/
theorem GetMappedModel_enabled_eq_table (g : String) :
    (g = "gemini-1.0-pro-vision-latest" → GetMappedModel true g = "gpt-4-vision-preview") ∧
    (g = "gemini-1.5-pro-002" → GetMappedModel true g = "gpt-4-turbo-preview") ∧
    (g = "gemini-1.5-flash-002" → GetMappedModel true g = "gpt-4") ∧
    (g = "text-embedding-004" → GetMappedModel true g = "text-embedding-ada-002") ∧
    (g ≠ "gemini-1.0-pro-vision-latest" → g ≠ "gemini-1.5-pro-002" →
      g ≠ "gemini-1.5-flash-002" → g ≠ "text-embedding-004" →
      GetMappedModel true g = "gpt-3.5-turbo") ∧
    GetMappedModel true "gemini-1.5-flash-8b" = "gpt-3.5-turbo" := by
  refine ⟨?_, ?_, ?_, ?_, ?_, by decide⟩
  · rintro rfl; decide
  · rintro rfl; decide
  · rintro rfl; decide
  · rintro rfl; decide
  · exact GetMappedModel_default g

/-- C6 at the input "gemini-2.0-flash", a backend name outside the table. -/
theorem GetMappedModel_enabled_eq_table_witness :
    GetMappedModel true "gemini-2.0-flash" = "gpt-3.5-turbo" :=
  (GetMappedModel_enabled_eq_table "gemini-2.0-flash").2.2.2.2.1
    (by decide) (by decide) (by decide) (by decide)

/-- C7: when mapping is disabled, `GetMappedModel(g) = g` for every string `g`; in
particular the five Gemini constants come back untranslated. -/
theorem GetMappedModel_disabled (g : String) :
    GetMappedModel false g = g ∧
    GetMappedModel false Gemini1Dot5Flash8b = "gemini-1.5-flash-8b" ∧
    GetMappedModel false Gemini1Dot5Pro = "gemini-1.5-pro-002" ∧
    GetMappedModel false Gemini1Dot5Flash = "gemini-1.5-flash-002" ∧
    GetMappedModel false Gemini1Dot5ProV = "gemini-1.0-pro-vision-latest" ∧
    GetMappedModel false TextEmbedding004 = "text-embedding-004" := by
  refine ⟨by simp [GetMappedModel], ?_, ?_, ?_, ?_, ?_⟩ <;> decide

/-- C8: the forward/reverse pair is lossy. With mapping enabled "gpt-4-1106-preview"
goes to "gemini-1.5-pro-002" and comes back as "gpt-4-turbo-preview", so some `x` has
`GetMappedModel(ConvertModel(x)) ≠ x`; and two distinct names have the same
`ConvertModel` image, so `ConvertModel` is not injective. -/
theorem ConvertModel_lossy :
    ConvertModel "gpt-4-1106-preview" = "gemini-1.5-pro-002" ∧
    GetMappedModel true "gemini-1.5-pro-002" = "gpt-4-turbo-preview" ∧
    (∃ x : String, GetMappedModel true (ConvertModel x) ≠ x) ∧
    (∃ x y : String, x ≠ y ∧ ConvertModel x = ConvertModel y) ∧
    ¬ Function.Injective ConvertModel := by
  refine ⟨by decide, by decide, ⟨"gpt-4-1106-preview", by decide⟩,
    ⟨"gpt-4-1106-preview", "gpt-4-turbo-preview", by decide, by decide⟩, ?_⟩
  intro hinj
  have heq : ConvertModel "gpt-4-1106-preview" = ConvertModel "gpt-4-turbo-preview" := by
    decide
  exact absurd (hinj heq) (by decide)

/-! ## Chat requests with mapping enabled -/

/-- C9: chat request, mapping enabled, vision model. For every request whose `Model`
is "gpt-4-vision-preview" and every value `v` of the `GPT_4_VISION_PREVIEW` variable,
`ToGenaiModel` returns "gemini-1.5-pro-002" if `v` is "gemini-1.5-pro-002" and
"gemini-1.5-flash-002" otherwise; in particular it returns "gemini-1.5-flash-002"
when the variable is unset (`v` is the empty string). -/
theorem ToGenaiModel_enabled_vision (req : ChatCompletionRequest) (env : Environ)
    (v : String) (hm : req.Model = "gpt-4-vision-preview")
    (hv : os.Getenv env "GPT_4_VISION_PREVIEW" = v) :
    (v = "gemini-1.5-pro-002" → req.ToGenaiModel true env = "gemini-1.5-pro-002") ∧
    (v ≠ "gemini-1.5-pro-002" → req.ToGenaiModel true env = "gemini-1.5-flash-002") ∧
    (v = "" → req.ToGenaiModel true env = "gemini-1.5-flash-002") := by
  have hpro : v = "gemini-1.5-pro-002" →
      req.ToGenaiModel true env = "gemini-1.5-pro-002" := by
    intro h
    simp only [ChatCompletionRequest.ToGenaiModel, ChatCompletionRequest.ParseModelWithMapping,
      openai.GPT4VisionPreview, Gemini1Dot5Pro, Gemini1Dot5Flash, if_true]
    rw [if_pos hm, if_pos (hv.trans h)]
  have hflash : v ≠ "gemini-1.5-pro-002" →
      req.ToGenaiModel true env = "gemini-1.5-flash-002" := by
    intro h
    simp only [ChatCompletionRequest.ToGenaiModel, ChatCompletionRequest.ParseModelWithMapping,
      openai.GPT4VisionPreview, Gemini1Dot5Pro, Gemini1Dot5Flash, if_true]
    rw [if_pos hm, if_neg (by rw [hv]; exact h)]
  refine ⟨hpro, hflash, ?_⟩
  rintro rfl
  exact hflash (by decide)

/-- C9 at a vision request, once with the override unset and once with the override
set to "gemini-1.5-pro-002". -/
theorem ToGenaiModel_enabled_vision_witness :
    ChatCompletionRequest.ToGenaiModel true (overrideEnv "")
      { Model := "gpt-4-vision-preview" } = "gemini-1.5-flash-002" ∧
    ChatCompletionRequest.ToGenaiModel true (overrideEnv "gemini-1.5-pro-002")
      { Model := "gpt-4-vision-preview" } = "gemini-1.5-pro-002" :=
  ⟨(ToGenaiModel_enabled_vision { Model := "gpt-4-vision-preview" } (overrideEnv "") ""
      rfl (by decide)).2.2 rfl,
   (ToGenaiModel_enabled_vision { Model := "gpt-4-vision-preview" }
      (overrideEnv "gemini-1.5-pro-002") "gemini-1.5-pro-002" rfl (by decide)).1 rfl⟩

/-- C10: chat request, mapping enabled, non-vision model. For every request whose
`Model` is not "gpt-4-vision-preview" and every environment (every override value),
`ToGenaiModel` returns `ConvertModel(req.Model)`; hence a model name matching no rule
of the table (not a turbo name, not starting with "gpt-4", not the embedding name)
resolves to "gemini-1.5-flash-8b". -/
theorem ToGenaiModel_enabled_other (req : ChatCompletionRequest) (env : Environ)
    (hm : req.Model ≠ "gpt-4-vision-preview") :
    req.ToGenaiModel true env = ConvertModel req.Model ∧
    (req.Model ≠ "gpt-4-turbo-preview" → req.Model ≠ "gpt-4-1106-preview" →
      req.Model ≠ "gpt-4-0125-preview" → ¬ StartsWith req.Model "gpt-4" →
      req.Model ≠ "text-embedding-ada-002" →
      req.ToGenaiModel true env = "gemini-1.5-flash-8b") := by
  have hconv : req.ToGenaiModel true env = ConvertModel req.Model := by
    simp only [ChatCompletionRequest.ToGenaiModel, ChatCompletionRequest.ParseModelWithMapping,
      openai.GPT4VisionPreview, if_true]
    rw [if_neg hm]
  refine ⟨hconv, ?_⟩
  intro _ _ _ hp he
  rw [hconv]
  exact ConvertModel_case_default req.Model hp he

/-- C10 at a request for the unrecognised model "claude-3", with the override set to
"gemini-1.5-pro-002". -/
theorem ToGenaiModel_enabled_other_witness :
    ChatCompletionRequest.ToGenaiModel true (overrideEnv "gemini-1.5-pro-002")
      { Model := "claude-3" } = ConvertModel "claude-3" ∧
    ChatCompletionRequest.ToGenaiModel true (overrideEnv "gemini-1.5-pro-002")
      { Model := "claude-3" } = "gemini-1.5-flash-8b" :=
  have h := ToGenaiModel_enabled_other { Model := "claude-3" }
    (overrideEnv "gemini-1.5-pro-002") (by decide)
  ⟨h.1, h.2 (by decide) (by decide) (by decide)
    ((hasPrefix_eq_false_iff "claude-3" "gpt-4").1 (by decide)) (by decide)⟩

/-! ## Result sets of the two tables -/

theorem ConvertModel_range (x : String) :
    ConvertModel x = "gemini-1.5-flash-8b" ∨ ConvertModel x = "gemini-1.5-pro-002" ∨
    ConvertModel x = "gemini-1.5-flash-002" ∨
    ConvertModel x = "gemini-1.0-pro-vision-latest" ∨
    ConvertModel x = "text-embedding-004" := by
  unfold ConvertModel
  split_ifs <;> simp [Gemini1Dot5Flash8b, Gemini1Dot5Pro, Gemini1Dot5Flash, Gemini1Dot5ProV,
    TextEmbedding004]

theorem GetMappedModel_range (g : String) :
    GetMappedModel true g = "gpt-4-vision-preview" ∨
    GetMappedModel true g = "gpt-4-turbo-preview" ∨ GetMappedModel true g = "gpt-4" ∨
    GetMappedModel true g = "text-embedding-ada-002" ∨
    GetMappedModel true g = "gpt-3.5-turbo" := by
  unfold GetMappedModel
  split_ifs <;> simp_all [openai.GPT4VisionPreview, openai.GPT4TurboPreview, openai.GPT4,
    openai.AdaEmbeddingV2, openai.GPT3Dot5Turbo]

theorem ConvertModel_eq_visionBackend (x : String)
    (h : ConvertModel x = "gemini-1.0-pro-vision-latest") : x = "gpt-4-vision-preview" := by
  unfold ConvertModel at h
  split_ifs at h with hv
  · exact hv
  · exact absurd h (by decide)
  · exact absurd h (by decide)
  · exact absurd h (by decide)
  · exact absurd h (by decide)

/-! ## Chat requests with mapping disabled, embedding requests, owner label -/

/-- C11: chat request, mapping disabled. For every request and every value `v` of the
`GPT_4_VISION_PREVIEW` variable, `ToGenaiModel` returns `req.Model` unchanged unless
`req.Model` is "gemini-1.0-pro-vision-latest"; in that case it returns
"gemini-1.5-pro-002" if `v` is "gemini-1.5-pro-002" and "gemini-1.5-flash-002"
otherwise. No forward translation happens in this mode: "gpt-4" and
"gpt-4-vision-preview" are returned as they are. -/
theorem ToGenaiModel_disabled (req : ChatCompletionRequest) (env : Environ) (v : String)
    (hv : os.Getenv env "GPT_4_VISION_PREVIEW" = v) :
    (req.Model ≠ "gemini-1.0-pro-vision-latest" → req.ToGenaiModel false env = req.Model) ∧
    (req.Model = "gemini-1.0-pro-vision-latest" → v = "gemini-1.5-pro-002" →
      req.ToGenaiModel false env = "gemini-1.5-pro-002") ∧
    (req.Model = "gemini-1.0-pro-vision-latest" → v ≠ "gemini-1.5-pro-002" →
      req.ToGenaiModel false env = "gemini-1.5-flash-002") ∧
    ChatCompletionRequest.ToGenaiModel false env { Model := "gpt-4" } = "gpt-4" ∧
    ChatCompletionRequest.ToGenaiModel false env { Model := "gpt-4-vision-preview" }
      = "gpt-4-vision-preview" := by
  have hother : ∀ r : ChatCompletionRequest, r.Model ≠ "gemini-1.0-pro-vision-latest" →
      r.ToGenaiModel false env = r.Model := by
    intro r hm
    simp only [ChatCompletionRequest.ToGenaiModel,
      ChatCompletionRequest.ParseModelWithoutMapping, Gemini1Dot5ProV]
    rw [if_neg (by simp), if_neg hm]
  refine ⟨hother req, ?_, ?_, hother _ (by decide), hother _ (by decide)⟩
  · intro hm h
    simp only [ChatCompletionRequest.ToGenaiModel,
      ChatCompletionRequest.ParseModelWithoutMapping, Gemini1Dot5ProV, Gemini1Dot5Pro]
    rw [if_neg (by simp), if_pos hm, if_pos (hv.trans h)]
  · intro hm h
    simp only [ChatCompletionRequest.ToGenaiModel,
      ChatCompletionRequest.ParseModelWithoutMapping, Gemini1Dot5ProV, Gemini1Dot5Pro,
      Gemini1Dot5Flash]
    rw [if_neg (by simp), if_pos hm, if_neg (by rw [hv]; exact h)]

/-- C11 at three requests with the override unset: "gpt-4o" passes through, and the
Gemini vision name resolves to "gemini-1.5-flash-002"; with the override set to
"gemini-1.5-pro-002" the Gemini vision name resolves to "gemini-1.5-pro-002". -/
theorem ToGenaiModel_disabled_witness :
    ChatCompletionRequest.ToGenaiModel false (overrideEnv "") { Model := "gpt-4o" }
      = "gpt-4o" ∧
    ChatCompletionRequest.ToGenaiModel false (overrideEnv "")
      { Model := "gemini-1.0-pro-vision-latest" } = "gemini-1.5-flash-002" ∧
    ChatCompletionRequest.ToGenaiModel false (overrideEnv "gemini-1.5-pro-002")
      { Model := "gemini-1.0-pro-vision-latest" } = "gemini-1.5-pro-002" :=
  ⟨(ToGenaiModel_disabled { Model := "gpt-4o" } (overrideEnv "") "" (by decide)).1
      (by decide),
   (ToGenaiModel_disabled { Model := "gemini-1.0-pro-vision-latest" } (overrideEnv "") ""
      (by decide)).2.2.1 rfl (by decide),
   (ToGenaiModel_disabled { Model := "gemini-1.0-pro-vision-latest" }
      (overrideEnv "gemini-1.5-pro-002") "gemini-1.5-pro-002" (by decide)).2.1 rfl rfl⟩

/-- C12: embedding request. For every `EmbeddingRequest`, `ToGenaiModel` returns
`req.Model` unchanged when mapping is disabled and `ConvertModel(req.Model)` when it is
enabled. There is no vision special case: the two vision names are treated like any
other name. The environment is not among the inputs of this method. -/
theorem EmbeddingRequest_ToGenaiModel (req : EmbeddingRequest) :
    req.ToGenaiModel false = req.Model ∧
    req.ToGenaiModel true = ConvertModel req.Model ∧
    EmbeddingRequest.ToGenaiModel false { Model := "gemini-1.0-pro-vision-latest" }
      = "gemini-1.0-pro-vision-latest" ∧
    EmbeddingRequest.ToGenaiModel true { Model := "gpt-4-vision-preview" }
      = "gemini-1.0-pro-vision-latest" := by
  refine ⟨by simp [EmbeddingRequest.ToGenaiModel], by simp [EmbeddingRequest.ToGenaiModel],
    by decide, by decide⟩

/-- C13: `GetOwner` returns "openai" when mapping is enabled and "google" when it is
disabled; the two labels are distinct, the result is always one of them, and two flag
values give the same label exactly when they are equal. -/
theorem GetOwner_label :
    GetOwner true = "openai" ∧ GetOwner false = "google" ∧ "openai" ≠ "google" ∧
    (∀ flag : Bool, GetOwner flag = "openai" ∨ GetOwner flag = "google") ∧
    (∀ a b : Bool, GetOwner a = GetOwner b ↔ a = b) := by
  refine ⟨by decide, by decide, by decide, ?_, ?_⟩
  · intro flag; cases flag <;> decide
  · intro a b; cases a <;> cases b <;> decide

/-- C14: the chat resolver never yields the vision backend name. For every request,
every value of the mapping flag and every environment (every override value),
`ChatCompletionRequest.ToGenaiModel` returns a string different from
"gemini-1.0-pro-vision-latest". -/
theorem ToGenaiModel_ne_visionBackend (flag : Bool) (env : Environ)
    (req : ChatCompletionRequest) :
    req.ToGenaiModel flag env ≠ "gemini-1.0-pro-vision-latest" := by
  cases flag
  · simp only [ChatCompletionRequest.ToGenaiModel,
      ChatCompletionRequest.ParseModelWithoutMapping]
    rw [if_neg (by simp)]
    split_ifs with hm ho
    · decide
    · decide
    · exact hm
  · simp only [ChatCompletionRequest.ToGenaiModel,
      ChatCompletionRequest.ParseModelWithMapping, if_true]
    split_ifs with hm ho
    · decide
    · decide
    · exact fun h => hm (ConvertModel_eq_visionBackend req.Model h)

/-! ## The override is read in the vision case only -/

/-- C15: noninterference of the `GPT_4_VISION_PREVIEW` override. For every flag value
and every chat request whose `Model` is not that mode's vision name
("gpt-4-vision-preview" when mapping is enabled, "gemini-1.0-pro-vision-latest" when
it is disabled), `ToGenaiModel` gives the same result in any two environments; and for
the vision name, any two environments whose override values are both different from
"gemini-1.5-pro-002" give the same result. -/
theorem ToGenaiModel_override_noninterference (flag : Bool) (env₁ env₂ : Environ)
    (req : ChatCompletionRequest) :
    (flag = true → req.Model ≠ "gpt-4-vision-preview" →
      req.ToGenaiModel flag env₁ = req.ToGenaiModel flag env₂) ∧
    (flag = false → req.Model ≠ "gemini-1.0-pro-vision-latest" →
      req.ToGenaiModel flag env₁ = req.ToGenaiModel flag env₂) ∧
    ((flag = true ∧ req.Model = "gpt-4-vision-preview") ∨
        (flag = false ∧ req.Model = "gemini-1.0-pro-vision-latest") →
      os.Getenv env₁ "GPT_4_VISION_PREVIEW" ≠ "gemini-1.5-pro-002" →
      os.Getenv env₂ "GPT_4_VISION_PREVIEW" ≠ "gemini-1.5-pro-002" →
      req.ToGenaiModel flag env₁ = req.ToGenaiModel flag env₂) := by
  refine ⟨?_, ?_, ?_⟩
  · rintro rfl hm
    have key : ∀ env : Environ, req.ToGenaiModel true env = ConvertModel req.Model := by
      intro env
      simp only [ChatCompletionRequest.ToGenaiModel,
        ChatCompletionRequest.ParseModelWithMapping, openai.GPT4VisionPreview, if_true]
      rw [if_neg hm]
    rw [key env₁, key env₂]
  · rintro rfl hm
    have key : ∀ env : Environ, req.ToGenaiModel false env = req.Model := by
      intro env
      simp only [ChatCompletionRequest.ToGenaiModel,
        ChatCompletionRequest.ParseModelWithoutMapping, Gemini1Dot5ProV]
      rw [if_neg (by simp), if_neg hm]
    rw [key env₁, key env₂]
  · rintro (⟨rfl, hm⟩ | ⟨rfl, hm⟩) h₁ h₂
    · have key : ∀ env : Environ,
          os.Getenv env "GPT_4_VISION_PREVIEW" ≠ "gemini-1.5-pro-002" →
          req.ToGenaiModel true env = Gemini1Dot5Flash := by
        intro env h
        simp only [ChatCompletionRequest.ToGenaiModel,
          ChatCompletionRequest.ParseModelWithMapping, openai.GPT4VisionPreview,
          Gemini1Dot5Pro, if_true]
        rw [if_pos hm, if_neg h]
      rw [key env₁ h₁, key env₂ h₂]
    · have key : ∀ env : Environ,
          os.Getenv env "GPT_4_VISION_PREVIEW" ≠ "gemini-1.5-pro-002" →
          req.ToGenaiModel false env = Gemini1Dot5Flash := by
        intro env h
        simp only [ChatCompletionRequest.ToGenaiModel,
          ChatCompletionRequest.ParseModelWithoutMapping, Gemini1Dot5ProV, Gemini1Dot5Pro]
        rw [if_neg (by simp), if_pos hm, if_neg h]
      rw [key env₁ h₁, key env₂ h₂]

/-- C15 at concrete inputs: a "gpt-4" request with mapping enabled resolves alike with
the override unset and with the override set to "gemini-1.5-pro-002"; a
"gemini-1.5-pro-002" request with mapping disabled likewise; and a vision request with
mapping enabled resolves alike under the overrides "" and "gemini-1.5-flash-002". -/
theorem ToGenaiModel_override_noninterference_witness :
    ChatCompletionRequest.ToGenaiModel true (overrideEnv "") { Model := "gpt-4" }
      = ChatCompletionRequest.ToGenaiModel true (overrideEnv "gemini-1.5-pro-002")
          { Model := "gpt-4" } ∧
    ChatCompletionRequest.ToGenaiModel false (overrideEnv "")
        { Model := "gemini-1.5-pro-002" }
      = ChatCompletionRequest.ToGenaiModel false (overrideEnv "gemini-1.5-pro-002")
          { Model := "gemini-1.5-pro-002" } ∧
    ChatCompletionRequest.ToGenaiModel true (overrideEnv "")
        { Model := "gpt-4-vision-preview" }
      = ChatCompletionRequest.ToGenaiModel true (overrideEnv "gemini-1.5-flash-002")
          { Model := "gpt-4-vision-preview" } :=
  ⟨(ToGenaiModel_override_noninterference true (overrideEnv "")
      (overrideEnv "gemini-1.5-pro-002") { Model := "gpt-4" }).1 rfl (by decide),
   (ToGenaiModel_override_noninterference false (overrideEnv "")
      (overrideEnv "gemini-1.5-pro-002") { Model := "gemini-1.5-pro-002" }).2.1 rfl
      (by decide),
   (ToGenaiModel_override_noninterference true (overrideEnv "")
      (overrideEnv "gemini-1.5-flash-002") { Model := "gpt-4-vision-preview" }).2.2
      (Or.inl ⟨rfl, rfl⟩) (by decide) (by decide)⟩

/-! ## Totality, round trip, iteration -/

/-- C16: totality with a closed result set. `ConvertModel` yields a result for every
input string, always one of the five backend constants; with mapping enabled
`GetMappedModel` yields a result for every input, always one of "gpt-4-vision-preview",
"gpt-4-turbo-preview", "gpt-4", "text-embedding-ada-002", "gpt-3.5-turbo". -/
theorem tables_total_closed (x g : String) :
    (∃ r : String, ConvertModel x = r ∧
      (r = "gemini-1.5-flash-8b" ∨ r = "gemini-1.5-pro-002" ∨ r = "gemini-1.5-flash-002" ∨
        r = "gemini-1.0-pro-vision-latest" ∨ r = "text-embedding-004")) ∧
    (∃ r : String, GetMappedModel true g = r ∧
      (r = "gpt-4-vision-preview" ∨ r = "gpt-4-turbo-preview" ∨ r = "gpt-4" ∨
        r = "text-embedding-ada-002" ∨ r = "gpt-3.5-turbo")) :=
  ⟨⟨ConvertModel x, rfl, ConvertModel_range x⟩,
   ⟨GetMappedModel true g, rfl, GetMappedModel_range g⟩⟩

/-- C17: round trip from the backend side. With mapping enabled,
`ConvertModel(GetMappedModel(g)) = g` for each of the five backend constants; hence
`ConvertModel(GetMappedModel(ConvertModel(x))) = ConvertModel(x)` for every string
`x`. -/
theorem ConvertModel_GetMappedModel_roundtrip (x : String) :
    ConvertModel (GetMappedModel true "gemini-1.0-pro-vision-latest")
      = "gemini-1.0-pro-vision-latest" ∧
    ConvertModel (GetMappedModel true "gemini-1.5-pro-002") = "gemini-1.5-pro-002" ∧
    ConvertModel (GetMappedModel true "gemini-1.5-flash-002") = "gemini-1.5-flash-002" ∧
    ConvertModel (GetMappedModel true "text-embedding-004") = "text-embedding-004" ∧
    ConvertModel (GetMappedModel true "gemini-1.5-flash-8b") = "gemini-1.5-flash-8b" ∧
    ConvertModel (GetMappedModel true (ConvertModel x)) = ConvertModel x := by
  refine ⟨by decide, by decide, by decide, by decide, by decide, ?_⟩
  rcases ConvertModel_range x with h | h | h | h | h <;> rw [h] <;> decide

/-- C18: `ConvertModel` does not pass backend names through. For every string `x`,
`ConvertModel(ConvertModel(x)) = "gemini-1.5-flash-8b"`; each of the five Gemini
constants converts to "gemini-1.5-flash-8b"; and `ConvertModel` is not idempotent, as
"gpt-4" shows. -/
theorem ConvertModel_twice (x : String) :
    ConvertModel (ConvertModel x) = "gemini-1.5-flash-8b" ∧
    ConvertModel Gemini1Dot5Flash8b = "gemini-1.5-flash-8b" ∧
    ConvertModel Gemini1Dot5Pro = "gemini-1.5-flash-8b" ∧
    ConvertModel Gemini1Dot5Flash = "gemini-1.5-flash-8b" ∧
    ConvertModel Gemini1Dot5ProV = "gemini-1.5-flash-8b" ∧
    ConvertModel TextEmbedding004 = "gemini-1.5-flash-8b" ∧
    ConvertModel (ConvertModel "gpt-4") ≠ ConvertModel "gpt-4" := by
  refine ⟨?_, by decide, by decide, by decide, by decide, by decide, by decide⟩
  rcases ConvertModel_range x with h | h | h | h | h <;> rw [h] <;> decide

/-! ## The mapping flag -/

/-- C19: the mapping flag is true unless explicitly disabled. With `e` the value of
`DISABLE_MODEL_MAPPING`, `USE_MODEL_MAPPING` is false if and only if `e` is exactly
"1"; every other value leaves mapping enabled, and so does the empty string of an
unset variable. -/
theorem USE_MODEL_MAPPING_false_iff (env : Environ) (e : String)
    (he : os.Getenv env "DISABLE_MODEL_MAPPING" = e) :
    (USE_MODEL_MAPPING env = false ↔ e = "1") ∧
    (e ≠ "1" → USE_MODEL_MAPPING env = true) ∧
    (e = "" → USE_MODEL_MAPPING env = true) := by
  have hiff : USE_MODEL_MAPPING env = false ↔ e = "1" := by
    unfold USE_MODEL_MAPPING
    rw [he]
    simp [bne]
  have hne : e ≠ "1" → USE_MODEL_MAPPING env = true := by
    intro h
    cases hflag : USE_MODEL_MAPPING env
    · exact absurd (hiff.1 hflag) h
    · rfl
  refine ⟨hiff, hne, ?_⟩
  rintro rfl
  exact hne (by decide)

/-- C19 in three environments: nothing set, `DISABLE_MODEL_MAPPING` set to "1", and
`DISABLE_MODEL_MAPPING` set to "true". -/
theorem USE_MODEL_MAPPING_false_iff_witness :
    USE_MODEL_MAPPING (fun _ => "") = true ∧
    USE_MODEL_MAPPING (fun key => if key = "DISABLE_MODEL_MAPPING" then "1" else "") = false ∧
    USE_MODEL_MAPPING (fun key => if key = "DISABLE_MODEL_MAPPING" then "true" else "")
      = true :=
  ⟨(USE_MODEL_MAPPING_false_iff (fun _ => "") "" rfl).2.2 rfl,
   (USE_MODEL_MAPPING_false_iff
      (fun key => if key = "DISABLE_MODEL_MAPPING" then "1" else "") "1"
      (by decide)).1.2 rfl,
   (USE_MODEL_MAPPING_false_iff
      (fun key => if key = "DISABLE_MODEL_MAPPING" then "true" else "") "true"
      (by decide)).2.1 (by decide)⟩

end adapter
